import Mathlib

/-
Verification of the Game Boy printer emulator core (src/gbp/gameboy_printer.cpp):
the byte streamer (bit synchronization, byte framing, transmit bit driving) and
the packet parser state machine.  The definitions below are a shallow embedding
of the C source: machine integers are Nat values reduced modulo 2^16 where the
C type is uint16_t, pin reads are explicit Bool inputs, a digitalWrite on the
serial-out pin is reported as an Option Bool output, and the `while (1) ;`
assertion failure is modelled as an absorbing `halted` flag.
-/

set_option maxHeartbeats 1000000

namespace Gbp

/-! ### Protocol constants

The header gameboy_printer_protocol.h is not among the sources; the spec (§6)
treats its contents as a fixed external contract. -/

/-- Modelled from the spec: command byte code for INIT, from the external
protocol constant table (gameboy_printer_protocol.h, missing from src/). -/
def GBP_COMMAND_INIT : Nat := 0x01

/-- Modelled from the spec: command byte code for PRINT, from the external
protocol constant table (gameboy_printer_protocol.h, missing from src/). -/
def GBP_COMMAND_PRINT : Nat := 0x02

/-- Modelled from the spec: command byte code for DATA, from the external
protocol constant table (gameboy_printer_protocol.h, missing from src/). -/
def GBP_COMMAND_DATA : Nat := 0x04

/-- Modelled from the spec: command byte code for INQUIRY, from the external
protocol constant table (gameboy_printer_protocol.h, missing from src/). -/
def GBP_COMMAND_INQUIRY : Nat := 0x0F

/-- Modelled from the spec: the fixed 16-bit preamble sync word, matched
MSB-first (gameboy_printer_protocol.h, missing from src/). -/
def GBP_SYNC_WORD : Nat := 0x8833

/-- Modelled from the spec: the fixed device-ID acknowledgement byte
(gameboy_printer_protocol.h, missing from src/). -/
def GBP_DEVICE_ID : Nat := 0x81

/-- From gameboy_printer.cpp line 28: milliseconds to pretend to print for. -/
def GBP_PACKET_PRETEND_PRINT_TIME_MS : Nat := 2000

/-- Capacity of gbp_print_settings_buffer, gameboy_printer.cpp line 141. -/
def GBP_SETTINGS_BUFFER_CAPACITY : Nat := 4

/-- Capacity of gbp_print_buffer, gameboy_printer.cpp line 142. -/
def GBP_PRINT_BUFFER_CAPACITY : Nat := 650

/-! ### Printer status -/

/-- Modelled from the spec (§3): PrinterStatus flags. The spec names these four
boolean flags and declares the exact bit layout an external contract; the
struct gbp_printer_status_t itself lives in the missing protocol header. -/
structure gbp_printer_status_t where
  checksum_error : Bool
  unprocessed_data : Bool
  print_buffer_full : Bool
  printer_busy : Bool
  deriving DecidableEq, Repr

/-- Modelled from the spec (§6): the status byte is a fixed bit-per-flag
encoding of PrinterStatus; the exact layout is an external constant from the
missing protocol header.  We fix checksum_error at bit 0, printer_busy at
bit 1, print_buffer_full at bit 2 and unprocessed_data at bit 3. -/
def gbp_status_byte (s : gbp_printer_status_t) : Nat :=
  8 * (cond s.unprocessed_data 1 0) + 4 * (cond s.print_buffer_full 1 0) +
    2 * (cond s.printer_busy 1 0) + (cond s.checksum_error 1 0)

/-! ### Byte streamer (gameboy_printer.cpp lines 92-282) -/

/-- Translation of struct gbp_rx_tx_byte_buffer_t (lines 92-113).  The C ints
holding pin levels are Bool here; uint16_t and uint8_t fields are Nat kept
below 2^16 / 2^8 by the operations. -/
structure gbp_rx_tx_byte_buffer_t where
  initialized : Bool
  serial_clock_state_prev : Bool
  syncronised : Bool
  sync_word : Nat
  sync_buffer : Nat
  byte_frame_bit_pos : Nat
  rx_byte_buffer : Nat
  tx_byte_staging : Nat
  tx_byte_buffer : Nat
  deriving DecidableEq, Repr

/-- Translation of gbp_rx_tx_byte_reset (lines 160-167): zero the struct, then
set initialized, clear syncronised and load the sync word. -/
def gbp_rx_tx_byte_reset : gbp_rx_tx_byte_buffer_t :=
  { initialized := true
    serial_clock_state_prev := false
    syncronised := false
    sync_word := GBP_SYNC_WORD
    sync_buffer := 0
    byte_frame_bit_pos := 0
    rx_byte_buffer := 0
    tx_byte_staging := 0
    tx_byte_buffer := 0 }

/-- Translation of gbp_rx_tx_byte_set (lines 169-172): stage the next byte to
be transmitted. -/
def gbp_rx_tx_byte_set (ptr : gbp_rx_tx_byte_buffer_t) (tx_byte : Nat) :
    gbp_rx_tx_byte_buffer_t :=
  { ptr with tx_byte_staging := tx_byte }

/-- Result of one gbp_rx_tx_byte_update call: the new struct, the byte_ready
return value, the rx_byte out-parameter (written only when a byte completed),
the rx_bitState out-parameter (NO_NEW_BIT rendered as none), and the level a
digitalWrite drove onto the serial-out pin during the call, if any. -/
structure rx_tx_update_result_t where
  buf : gbp_rx_tx_byte_buffer_t
  byte_ready : Bool
  rx_byte : Option Nat
  rx_bitState : Option Bool
  tx_drive : Option Bool
  deriving DecidableEq, Repr

/-- Translation of gbp_rx_tx_byte_update (lines 174-282).  The two digitalRead
results are the inputs serial_clock_state (clock pin) and serial_out_state
(data-in pin).  Note that source line 249 reads `if ((ptr->syncronised)) ;` --
the guard is terminated by a stray semicolon, so the transmit block below it is
a plain block that runs on every falling edge, synchronized or not; the
translation reproduces exactly that. -/
def gbp_rx_tx_byte_update (ptr : gbp_rx_tx_byte_buffer_t)
    (serial_clock_state serial_out_state : Bool) : rx_tx_update_result_t :=
  if !ptr.initialized then
    -- Record initial clock pin state (lines 183-189)
    { buf := { gbp_rx_tx_byte_reset with
                serial_clock_state_prev := serial_clock_state }
      byte_ready := false
      rx_byte := none
      rx_bitState := none
      tx_drive := none }
  else if serial_clock_state != ptr.serial_clock_state_prev then
    if serial_clock_state then
      -- Rising Clock (Bit Rx Read), lines 195-245
      if !ptr.syncronised then
        -- Preamble Sync Scan: sync_buffer <<= 1 on uint16_t, then |= 1
        let sb0 := (ptr.sync_buffer * 2) % 65536
        let sb := if serial_out_state then sb0 ||| 1 else sb0
        if sb = ptr.sync_word then
          { buf := { ptr with
                      sync_buffer := sb
                      syncronised := true
                      byte_frame_bit_pos := 7
                      serial_clock_state_prev := serial_clock_state }
            byte_ready := false
            rx_byte := none
            rx_bitState := some serial_out_state
            tx_drive := none }
        else
          { buf := { ptr with
                      sync_buffer := sb
                      serial_clock_state_prev := serial_clock_state }
            byte_ready := false
            rx_byte := none
            rx_bitState := some serial_out_state
            tx_drive := none }
      else
        -- Byte Read Mode
        let rxb := if serial_out_state then
                     ptr.rx_byte_buffer ||| (1 <<< ptr.byte_frame_bit_pos)
                   else ptr.rx_byte_buffer
        if ptr.byte_frame_bit_pos > 0 then
          { buf := { ptr with
                      rx_byte_buffer := rxb
                      byte_frame_bit_pos := ptr.byte_frame_bit_pos - 1
                      serial_clock_state_prev := serial_clock_state }
            byte_ready := false
            rx_byte := none
            rx_bitState := some serial_out_state
            tx_drive := none }
        else
          { buf := { ptr with
                      rx_byte_buffer := 0
                      byte_frame_bit_pos := 7
                      serial_clock_state_prev := serial_clock_state }
            byte_ready := true
            rx_byte := some rxb
            rx_bitState := some serial_out_state
            tx_drive := none }
    else
      -- Falling Clock (Bit Tx Set), lines 247-275.  The syncronised guard is
      -- inert (stray semicolon, line 249), so this always runs.
      let txb := if 7 = ptr.byte_frame_bit_pos then
                   (if ptr.tx_byte_staging ≠ 0 then ptr.tx_byte_staging else 0)
                 else ptr.tx_byte_buffer
      { buf := { ptr with
                  tx_byte_buffer := txb
                  serial_clock_state_prev := serial_clock_state }
        byte_ready := false
        rx_byte := none
        rx_bitState := none
        tx_drive := some (decide (txb &&& (1 <<< ptr.byte_frame_bit_pos) ≠ 0)) }
  else
    { buf := { ptr with serial_clock_state_prev := serial_clock_state }
      byte_ready := false
      rx_byte := none
      rx_bitState := none
      tx_drive := none }

/-- Drive a list of (clock level, data level) samples through the streamer,
collecting each call's serial-out drive (none when the call drove nothing). -/
def runEdges : gbp_rx_tx_byte_buffer_t → List (Bool × Bool) →
    gbp_rx_tx_byte_buffer_t × List (Option Bool)
  | buf, [] => (buf, [])
  | buf, e :: es =>
    let r := gbp_rx_tx_byte_update buf e.1 e.2
    let rest := runEdges r.buf es
    (rest.1, r.tx_drive :: rest.2)

/-- One sampled receive bit, presented as a clock-low half cycle followed by a
clock-high (rising edge) sample of the data level. -/
def feedBit (buf : gbp_rx_tx_byte_buffer_t) (b : Bool) : gbp_rx_tx_byte_buffer_t :=
  (gbp_rx_tx_byte_update (gbp_rx_tx_byte_update buf false b).buf true b).buf

/-- Feed a whole list of receive bits (one rising edge each). -/
def feedBits (buf : gbp_rx_tx_byte_buffer_t) (bs : List Bool) :
    gbp_rx_tx_byte_buffer_t :=
  bs.foldl feedBit buf

/-! ### Packet parser (gameboy_printer.cpp lines 52-148, 288-548) -/

/-- Translation of enum gbp_parse_state_t (lines 53-66). -/
inductive gbp_parse_state_t where
  | COMMAND
  | COMPRESSION
  | DATA_LENGTH_LOW
  | PACKET_DATA_LENGTH_HIGH
  | VARIABLE_PAYLOAD
  | CHECKSUM_LOW
  | CHECKSUM_HIGH
  | DEVICE_ID
  | PRINTER_STATUS
  | PACKET_RECEIVED
  | DIAGNOSTICS
  deriving DecidableEq, Repr

/-- The C field data_ptr is a raw pointer that is NULL or aims at one of the
two fixed buffers of gbp_printer_t (lines 327-341); rendered as a tag. -/
inductive gbp_data_ptr_t where
  | null
  | print_buffer
  | settings_buffer
  deriving DecidableEq, Repr

/-- Translation of struct gbp_packet_t (lines 69-81). -/
structure gbp_packet_t where
  command : Nat
  compression : Nat
  data_length : Nat
  data_ptr : gbp_data_ptr_t
  checksum : Nat
  acknowledgement : Nat
  printer_status : Nat
  deriving DecidableEq, Repr

/-- Translation of struct gbp_packet_parser_t (lines 116-125). -/
structure gbp_packet_parser_t where
  parse_state : gbp_parse_state_t
  data_index : Nat
  calculated_checksum : Nat
  crc_high : Nat
  crc_low : Nat
  deriving DecidableEq, Repr

/-- Translation of struct gbp_printer_t (lines 128-147), restricted to the
fields the parser and session logic touch.  The C field gbp_packet_parser is
called gbp_packet_parsing here.  The two fixed C arrays are total
maps Nat → Nat, mirroring raw memory: the source indexes them with no bounds
check, so the maps accept any offset.  halted models the `while (1) ;` of
line 376 (the call never returns and no later call runs) and
serial_error_report the Serial.println just before it. -/
structure gbp_printer_t where
  gbp_printer_status : gbp_printer_status_t
  gbp_packet_parsing : gbp_packet_parser_t
  gbp_packet : gbp_packet_t
  packet_ready_flag : Bool
  gbp_print_settings_buffer : Nat → Nat
  gbp_print_buffer : Nat → Nat
  uptime_til_pretend_print_finish_ms : Nat
  halted : Bool
  serial_error_report : Bool

/-- Write one cell of a raw byte array. -/
def bufWrite (f : Nat → Nat) (i v : Nat) : Nat → Nat :=
  fun j => if j = i then v else f j

/-- The payload store `packet_ptr->data_ptr[ptr->data_index] = rx_byte`
(line 397), resolved through the data_ptr tag.  A store through NULL would
fault in C; it is unreachable in runs that respect line 373's check. -/
def payloadWrite (pr : gbp_printer_t) (tgt : gbp_data_ptr_t) (i v : Nat) :
    gbp_printer_t :=
  match tgt with
  | .null => pr
  | .print_buffer =>
    { pr with gbp_print_buffer := bufWrite pr.gbp_print_buffer i v }
  | .settings_buffer =>
    { pr with gbp_print_settings_buffer := bufWrite pr.gbp_print_settings_buffer i v }

/-- Translation of gbp_parse_message_reset (lines 288-294): aggregate
initialisation with zeroes. -/
def gbp_parse_message_reset : gbp_packet_parser_t :=
  { parse_state := .COMMAND
    data_index := 0
    calculated_checksum := 0
    crc_high := 0
    crc_low := 0 }

/-- Result of one gbp_parse_message_update call: the mutated printer aggregate
plus the new_tx_byte / tx_byte out-parameters and the bool return value. -/
structure parse_update_result_t where
  printer : gbp_printer_t
  new_tx_byte : Bool
  tx_byte : Nat
  error_status : Bool

/-- Translation of gbp_parse_message_update (lines 296-548).  The function
first consumes the incoming byte in the current state (the NEW BYTES switch,
lines 314-446), then, if the state changed, runs the new state's entry action
(the INIT FOR NEXT STAGE switch, lines 455-545).  now_ms is the millis() read
of line 524.  When the SIMPLE ASSERT of lines 373-378 fires the C code prints
an error and spins in `while (1) ;` forever: that is modelled by setting
halted and serial_error_report and returning at once, and a call on an already
halted printer changes nothing. -/
def gbp_parse_message_update (pr : gbp_printer_t) (now_ms : Nat)
    (new_rx_byte : Bool) (rx_byte : Nat) : parse_update_result_t :=
  if pr.halted then
    { printer := pr, new_tx_byte := false, tx_byte := 0, error_status := false }
  else
    let parse_state_prev := pr.gbp_packet_parsing.parse_state
    -- NEW BYTES (lines 314-446)
    let pr1 : gbp_printer_t :=
      if new_rx_byte then
        match pr.gbp_packet_parsing.parse_state with
        | .COMMAND =>
          let dp : gbp_data_ptr_t :=
            if rx_byte = GBP_COMMAND_INIT then .null
            else if rx_byte = GBP_COMMAND_DATA then .print_buffer
            else if rx_byte = GBP_COMMAND_PRINT then .settings_buffer
            else if rx_byte = GBP_COMMAND_INQUIRY then .null
            else .null
          { pr with
            gbp_packet_parsing := { pr.gbp_packet_parsing with
              parse_state := .COMPRESSION
              calculated_checksum := (0 + rx_byte) % 65536 }
            gbp_packet := { pr.gbp_packet with
              command := rx_byte
              data_ptr := dp } }
        | .COMPRESSION =>
          { pr with
            gbp_packet_parsing := { pr.gbp_packet_parsing with
              parse_state := .DATA_LENGTH_LOW
              calculated_checksum :=
                (pr.gbp_packet_parsing.calculated_checksum + rx_byte) % 65536 }
            gbp_packet := { pr.gbp_packet with compression := rx_byte } }
        | .DATA_LENGTH_LOW =>
          { pr with
            gbp_packet_parsing := { pr.gbp_packet_parsing with
              parse_state := .PACKET_DATA_LENGTH_HIGH
              calculated_checksum :=
                (pr.gbp_packet_parsing.calculated_checksum + rx_byte) % 65536 }
            gbp_packet := { pr.gbp_packet with
              data_length := pr.gbp_packet.data_length ||| (rx_byte &&& 0x00FF) } }
        | .PACKET_DATA_LENGTH_HIGH =>
          let dl := pr.gbp_packet.data_length ||| ((rx_byte <<< 8) &&& 0xFF00)
          if dl > 0 ∧ pr.gbp_packet.data_ptr = .null then
            -- SIMPLE ASSERT (lines 373-378): print the error, then while (1) ;
            { pr with
              gbp_packet := { pr.gbp_packet with data_length := dl }
              serial_error_report := true
              halted := true }
          else
            { pr with
              gbp_packet_parsing := { pr.gbp_packet_parsing with
                parse_state :=
                  if dl > 0 then .VARIABLE_PAYLOAD else .CHECKSUM_LOW
                calculated_checksum :=
                  (pr.gbp_packet_parsing.calculated_checksum + rx_byte) % 65536 }
              gbp_packet := { pr.gbp_packet with data_length := dl } }
        | .VARIABLE_PAYLOAD =>
          let prw := payloadWrite pr pr.gbp_packet.data_ptr
                        pr.gbp_packet_parsing.data_index rx_byte
          let idx := (pr.gbp_packet_parsing.data_index + 1) % 65536
          { prw with
            gbp_packet_parsing := { prw.gbp_packet_parsing with
              parse_state :=
                if idx > pr.gbp_packet.data_length then .CHECKSUM_LOW
                else .VARIABLE_PAYLOAD
              data_index := idx
              calculated_checksum :=
                (pr.gbp_packet_parsing.calculated_checksum + rx_byte) % 65536 } }
        | .CHECKSUM_LOW =>
          { pr with
            gbp_packet_parsing := { pr.gbp_packet_parsing with
              parse_state := .CHECKSUM_HIGH
              crc_low := rx_byte }
            gbp_packet := { pr.gbp_packet with
              checksum := 0 ||| (rx_byte &&& 0x00FF) } }
        | .CHECKSUM_HIGH =>
          { pr with
            gbp_packet_parsing := { pr.gbp_packet_parsing with
              parse_state := .DEVICE_ID
              crc_high := rx_byte }
            gbp_packet := { pr.gbp_packet with
              checksum := pr.gbp_packet.checksum ||| ((rx_byte <<< 8) &&& 0xFF00) } }
        | .DEVICE_ID =>
          { pr with
            gbp_packet_parsing := { pr.gbp_packet_parsing with
              parse_state := .PRINTER_STATUS } }
        | .PRINTER_STATUS =>
          { pr with
            gbp_packet_parsing := { pr.gbp_packet_parsing with
              parse_state := .PACKET_RECEIVED } }
        | .PACKET_RECEIVED => pr
        | .DIAGNOSTICS => pr
      else pr
    if pr1.halted then
      -- while (1) ; never returns: nothing below line 378 runs on this call
      { printer := pr1, new_tx_byte := false, tx_byte := 0, error_status := false }
    else
    -- INIT FOR NEXT STAGE (lines 455-545), run on a state change only
    if pr1.gbp_packet_parsing.parse_state ≠ parse_state_prev then
      match pr1.gbp_packet_parsing.parse_state with
      | .DATA_LENGTH_LOW =>
        { printer := { pr1 with
            gbp_packet := { pr1.gbp_packet with data_length := 0 } }
          new_tx_byte := false, tx_byte := 0, error_status := false }
      | .VARIABLE_PAYLOAD =>
        { printer := { pr1 with
            gbp_packet_parsing := { pr1.gbp_packet_parsing with data_index := 0 } }
          new_tx_byte := false, tx_byte := 0, error_status := false }
      | .DEVICE_ID =>
        { printer := { pr1 with
            gbp_packet := { pr1.gbp_packet with
              acknowledgement := GBP_DEVICE_ID } }
          new_tx_byte := true, tx_byte := GBP_DEVICE_ID, error_status := false }
      | .PRINTER_STATUS =>
        -- Checksum Verification (lines 501-509)
        let st0 := pr1.gbp_printer_status
        let st1 :=
          if pr1.gbp_packet_parsing.calculated_checksum = pr1.gbp_packet.checksum
          then { st0 with checksum_error := false }
          else { st0 with checksum_error := true }
        -- Per-command side effects (lines 511-528)
        let st2 :=
          if pr1.gbp_packet.command = GBP_COMMAND_INIT then st1
          else if pr1.gbp_packet.command = GBP_COMMAND_DATA then
            { st1 with unprocessed_data := true }
          else if pr1.gbp_packet.command = GBP_COMMAND_PRINT then
            { st1 with
              unprocessed_data := false
              print_buffer_full := true
              printer_busy := true }
          else st1
        let deadline :=
          if pr1.gbp_packet.command = GBP_COMMAND_PRINT then
            now_ms + GBP_PACKET_PRETEND_PRINT_TIME_MS
          else pr1.uptime_til_pretend_print_finish_ms
        let sb := gbp_status_byte st2
        { printer := { pr1 with
            gbp_printer_status := st2
            uptime_til_pretend_print_finish_ms := deadline
            gbp_packet := { pr1.gbp_packet with printer_status := sb } }
          new_tx_byte := true, tx_byte := sb, error_status := false }
      | .PACKET_RECEIVED =>
        { printer := { pr1 with packet_ready_flag := true }
          new_tx_byte := false, tx_byte := 0, error_status := false }
      | _ =>
        -- COMMAND, COMPRESSION, PACKET_DATA_LENGTH_HIGH, CHECKSUM_LOW,
        -- CHECKSUM_HIGH and DIAGNOSTICS have empty entry actions
        { printer := pr1, new_tx_byte := false, tx_byte := 0, error_status := false }
    else
      { printer := pr1, new_tx_byte := false, tx_byte := 0, error_status := false }

/-- Translation of gbp_printer_init (lines 552-559) applied to the
zero-initialised global gbp_printer of line 152. -/
def gbp_printer_init : gbp_printer_t :=
  { gbp_printer_status :=
      { checksum_error := false
        unprocessed_data := false
        print_buffer_full := false
        printer_busy := false }
    gbp_packet_parsing := gbp_parse_message_reset
    gbp_packet :=
      { command := 0
        compression := 0
        data_length := 0
        data_ptr := .null
        checksum := 0
        acknowledgement := 0
        printer_status := 0 }
    packet_ready_flag := false
    gbp_print_settings_buffer := fun _ => 0
    gbp_print_buffer := fun _ => 0
    uptime_til_pretend_print_finish_ms := 0
    halted := false
    serial_error_report := false }

/-- One completed byte handed to the parser, as serialClock_ISR does
(lines 591-597); the staged-response plumbing is not needed for the state
facts proved below, so the out-parameters are dropped. -/
def parseStep (pr : gbp_printer_t) (b : Nat) : gbp_printer_t :=
  (gbp_parse_message_update pr 0 true b).printer

/-- Feed a byte list through the parser in order. -/
def parseBytes (pr : gbp_printer_t) (bs : List Nat) : gbp_printer_t :=
  bs.foldl parseStep pr


/-! ### Concrete runs used by the claim theorems -/

/-- The 16 bits of GBP_SYNC_WORD = 0x8833, MSB first. -/
def syncBits : List Bool :=
  [true, false, false, false, true, false, false, false,
   false, false, true, true, false, false, true, true]

/-- The sync-word occurs as a contiguous MSB-first bit run ending at the end
of l: l is at least 16 bits long and its last 16 bits are syncBits. -/
def endsWithSync (l : List Bool) : Prop :=
  16 ≤ l.length ∧ l.drop (l.length - 16) = syncBits

instance (l : List Bool) : Decidable (endsWithSync l) := by
  unfold endsWithSync; infer_instance

/-- The byte stream of the round-trip claim: a DATA packet, compression 0,
length 3, payload 11 22 33, the little-endian checksum
(4 + 0 + 3 + 0 + 0x11 + 0x22 + 0x33) % 65536 = 0x006D, then two further bytes
for the device-id and status slots. -/
def c1_bytes : List Nat :=
  [0x04, 0x00, 0x03, 0x00, 0x11, 0x22, 0x33, 0x6D, 0x00, 0x00, 0x00]

/-- The parser state after feeding c1_bytes from a freshly initialised
printer. -/
def c1_run : gbp_printer_t := parseBytes gbp_printer_init c1_bytes

/-- The streamer right after one rising clock edge from reset: still
unsynchronized, previous clock level high. -/
def c2_buf : gbp_rx_tx_byte_buffer_t :=
  (gbp_rx_tx_byte_update gbp_rx_tx_byte_reset true false).buf

/-- A parser that has just finished a PRINT packet (state PACKET_RECEIVED,
command 0x02), as left behind by a completed packet. -/
def c4_pr : gbp_printer_t :=
  { gbp_printer_init with
    gbp_packet_parsing :=
      { gbp_parse_message_reset with parse_state := .PACKET_RECEIVED }
    gbp_packet := { gbp_printer_init.gbp_packet with command := 0x02 } }

/-- The printer after an INIT packet that declares data_length 1: bytes
command 0x01, compression 0, length low 1, length high 0. -/
def c7_run : gbp_printer_t := parseBytes gbp_printer_init [0x01, 0x00, 0x01, 0x00]

/-- A parser mid-payload on a DATA packet whose declared length 700 exceeds
the 650-byte image buffer, with 650 payload bytes already consumed: the next
write lands at offset 650, one past the last valid index. -/
def c8_pr : gbp_printer_t :=
  { gbp_printer_init with
    gbp_packet_parsing :=
      { gbp_parse_message_reset with
          parse_state := .VARIABLE_PAYLOAD
          data_index := 650 }
    gbp_packet :=
      { gbp_printer_init.gbp_packet with
          command := 0x04
          data_ptr := .print_buffer
          data_length := 700 } }

/-- A parser mid-payload on a PRINT packet whose declared length 4 fills the
4-byte settings buffer exactly, with 4 payload bytes already consumed: the
off-by-one makes the parser consume a fifth byte, whose write lands at offset
4, one past the last valid index of gbp_print_settings_buffer. -/
def c8s_pr : gbp_printer_t :=
  { gbp_printer_init with
    gbp_packet_parsing :=
      { gbp_parse_message_reset with
          parse_state := .VARIABLE_PAYLOAD
          data_index := 4 }
    gbp_packet :=
      { gbp_printer_init.gbp_packet with
          command := 0x02
          data_ptr := .settings_buffer
          data_length := 4 } }

/-- A synchronized streamer at the start of a byte frame with 0x55 staged
(gbp_rx_tx_byte_set was called once), previous clock level high. -/
def c9_staged : gbp_rx_tx_byte_buffer_t :=
  gbp_rx_tx_byte_set
    { gbp_rx_tx_byte_reset with
        syncronised := true
        byte_frame_bit_pos := 7
        serial_clock_state_prev := true }
    0x55

/-- Thirty-two clock half-cycles (falling, rising, sixteen times over) with
the data-in line low throughout: two full byte frames with no staging call in
between. -/
def c9_edges : List (Bool × Bool) :=
  (List.replicate 16 [((false : Bool), (false : Bool)), (true, false)]).flatten

/-- The parser right after the header of a DATA packet declaring
data_length = 0xFFFF (bytes 0x04, 0x00, 0xFF, 0xFF). -/
def c3_stuck : gbp_printer_t :=
  parseBytes gbp_printer_init [0x04, 0x00, 0xFF, 0xFF]

/-- A parser entering the payload stage of a DATA packet of length 3: state
VARIABLE_PAYLOAD, index 0, image buffer selected. -/
def c3_wit : gbp_printer_t :=
  { gbp_printer_init with
    gbp_packet_parsing :=
      { gbp_parse_message_reset with parse_state := .VARIABLE_PAYLOAD }
    gbp_packet :=
      { gbp_printer_init.gbp_packet with
          command := 0x04
          data_ptr := .print_buffer
          data_length := 3 } }

/-- A parser in state DEVICE_ID whose running sum 5 does not match the
received checksum 7 (DATA command). -/
def c6_pr : gbp_printer_t :=
  { gbp_printer_init with
    gbp_packet_parsing :=
      { gbp_parse_message_reset with
          parse_state := .DEVICE_ID
          calculated_checksum := 5 }
    gbp_packet :=
      { gbp_printer_init.gbp_packet with checksum := 7, command := 0x04 } }

/-- A parser in state DEVICE_ID whose packet command is INIT, with every
status flag raised, about to run the STATUS entry action. -/
def c10_pr : gbp_printer_t :=
  { gbp_printer_init with
    gbp_printer_status :=
      { checksum_error := true
        unprocessed_data := true
        print_buffer_full := true
        printer_busy := true }
    gbp_packet_parsing :=
      { gbp_parse_message_reset with parse_state := .DEVICE_ID }
    gbp_packet := { gbp_printer_init.gbp_packet with command := 0x01 } }

/-- A synchronized streamer at the start of a byte frame with 0xA5 staged. -/
def c9_wit : gbp_rx_tx_byte_buffer_t :=
  gbp_rx_tx_byte_set
    { gbp_rx_tx_byte_reset with
        syncronised := true
        byte_frame_bit_pos := 7
        serial_clock_state_prev := true }
    0xA5

/-- One step of the preamble scan on the 16-bit sync shift register: shift
left with uint16_t truncation, then or in the sampled bit, exactly as lines
206-212 do. -/
def stepVal (a : Nat) (b : Bool) : Nat :=
  let s := (a * 2) % 65536
  if b then s ||| 1 else s

/-- The sync shift register after scanning a bit list starting from v. -/
def foldVal (v : Nat) (bs : List Bool) : Nat := bs.foldl stepVal v

/-- The value of a bit list read MSB-first as a binary numeral, over an
arbitrary accumulator. -/
def rawValFrom (v : Nat) (bs : List Bool) : Nat :=
  bs.foldl (fun a b => 2 * a + cond b 1 0) v

/-- The value of a bit list read MSB-first as a binary numeral. -/
def rawVal (bs : List Bool) : Nat := rawValFrom 0 bs

/-- Invariant of the streamer while it scans for the preamble. -/
def UnsyncInv (s : gbp_rx_tx_byte_buffer_t) : Prop :=
  s.initialized = true ∧ s.syncronised = false ∧ s.sync_word = GBP_SYNC_WORD

/-! ### C1, round-trip claim -/

/-- C1, counterexample.  Feeding c1_bytes (the round-trip stream of the claim,
with checksum (4+0+3+0+0x11+0x22+0x33) % 65536 sent little-endian and two
further bytes for the device-id and status slots) does NOT leave
checksum_error false: the claim fails on the code. -/
theorem c1_roundtrip_counterexample :
    ¬ (c1_run.gbp_printer_status.checksum_error = false) := by decide

/-- C1, amended.  Feeding c1_bytes stores the three payload bytes verbatim at
offsets 0, 1, 2 of the image buffer, but ends with checksum_error = true: the
payload stage's off-by-one consumes the checksum-low byte 0x6D as a fourth
payload byte (stored at offset 3), so the received checksum is assembled from
the two following bytes and cannot match the running sum. -/
theorem c1_roundtrip_amended :
    c1_run.gbp_printer_status.checksum_error = true ∧
    c1_run.gbp_print_buffer 0 = 0x11 ∧
    c1_run.gbp_print_buffer 1 = 0x22 ∧
    c1_run.gbp_print_buffer 2 = 0x33 ∧
    c1_run.gbp_print_buffer 3 = 0x6D ∧
    c1_run.gbp_packet_parsing.data_index = 4 := by decide

/-! ### C2, no transmission while unsynchronized -/

/-- C2.  The code drives the serial-out pin on a falling clock edge even
though the streamer is not synchronized: from reset, one rising edge (data
low) leaves the streamer unsynchronized, and the following falling edge still
performs a digitalWrite (here of a low level).  The guard
`if ((ptr->syncronised)) ;` on source line 249 is terminated by a stray
semicolon, so the transmit block always runs, contradicting the comment
"Only start transmitting when syncronised" right next to it. -/
theorem c2_unsync_falling_edge_drives :
    c2_buf.syncronised = false ∧
    (gbp_rx_tx_byte_update c2_buf false false).tx_drive = some false := by decide

/-! ### C4, restart after PACKET_RECEIVED -/

/-- C4, counterexample.  In state PACKET_RECEIVED the next incoming byte is
not consumed as the COMMAND byte of a new packet: feeding byte 0x04 to c4_pr
neither advances the state to COMPRESSION nor records 0x04 as the command. -/
theorem c4_packet_received_counterexample :
    ¬ ((parseStep c4_pr 0x04).gbp_packet_parsing.parse_state = .COMPRESSION ∧
       (parseStep c4_pr 0x04).gbp_packet.command = 0x04) := by decide

/-- C4, amended.  The state machine is strictly linear, but PACKET_RECEIVED
is absorbing inside the parser: a byte arriving there is consumed by an empty
case, the whole printer aggregate is left unchanged and no response byte is
staged.  A new packet starts only after an external gbp_parse_message_reset,
whose initial state is COMMAND. -/
theorem c4_packet_received_amended (pr : gbp_printer_t) (now_ms rx : Nat)
    (h0 : pr.halted = false)
    (h1 : pr.gbp_packet_parsing.parse_state = .PACKET_RECEIVED) :
    (gbp_parse_message_update pr now_ms true rx).printer = pr ∧
    (gbp_parse_message_update pr now_ms true rx).new_tx_byte = false ∧
    gbp_parse_message_reset.parse_state = .COMMAND := by
  unfold gbp_parse_message_update
  simp [h0, h1, gbp_parse_message_reset]

/-- C4, witness: the amended theorem applied to the concrete printer c4_pr
and byte 0x04. -/
theorem c4_packet_received_witness :
    (gbp_parse_message_update c4_pr 0 true 0x04).printer = c4_pr ∧
    (gbp_parse_message_update c4_pr 0 true 0x04).new_tx_byte = false ∧
    gbp_parse_message_reset.parse_state = .COMMAND :=
  c4_packet_received_amended c4_pr 0 0x04 rfl rfl

/-! ### C7, protocol violation handling -/

/-- C7, counterexample.  On a protocol violation (INIT packet declaring
data_length 1) the system does not recover and resynchronize: it reaches the
absorbing halted state (the `while (1) ;` of line 376), with the parser still
in PACKET_DATA_LENGTH_HIGH rather than reset to COMMAND. -/
theorem c7_protocol_violation_counterexample :
    c7_run.halted = true ∧
    ¬ (c7_run.gbp_packet_parsing.parse_state = .COMMAND) := by decide

/-- C7, amended.  On a protocol violation -- a nonzero assembled data_length
while data_ptr is NULL -- the code reports the violation over the serial
console and then halts all further processing forever (the reference fatal
behavior): the parser enters the halted state without changing parse state,
and every later call leaves the printer untouched.  No resynchronization
occurs. -/
theorem c7_protocol_violation_amended (pr : gbp_printer_t) (now_ms rx : Nat)
    (h0 : pr.halted = false)
    (h1 : pr.gbp_packet_parsing.parse_state = .PACKET_DATA_LENGTH_HIGH)
    (h2 : pr.gbp_packet.data_ptr = .null)
    (h3 : 0 < pr.gbp_packet.data_length ||| ((rx <<< 8) &&& 0xFF00)) :
    (gbp_parse_message_update pr now_ms true rx).printer.halted = true ∧
    (gbp_parse_message_update pr now_ms true rx).printer.serial_error_report = true ∧
    (gbp_parse_message_update pr now_ms true rx).printer.gbp_packet_parsing.parse_state =
      .PACKET_DATA_LENGTH_HIGH ∧
    ∀ now2 nb rx2,
      (gbp_parse_message_update
        (gbp_parse_message_update pr now_ms true rx).printer now2 nb rx2).printer =
      (gbp_parse_message_update pr now_ms true rx).printer := by
  unfold gbp_parse_message_update
  simp [h0, h1, h2, h3, Nat.pos_iff_ne_zero.mp h3]

/-- C7, witness: the amended theorem applied to the parser state just before
the violating length-high byte of the INIT packet 0x01 0x00 0x01 0x00. -/
theorem c7_protocol_violation_witness :
    ((gbp_parse_message_update (parseBytes gbp_printer_init [0x01, 0x00, 0x01]) 0 true 0).printer.halted = true ∧
     (gbp_parse_message_update (parseBytes gbp_printer_init [0x01, 0x00, 0x01]) 0 true 0).printer.serial_error_report = true ∧
     (gbp_parse_message_update (parseBytes gbp_printer_init [0x01, 0x00, 0x01]) 0 true 0).printer.gbp_packet_parsing.parse_state =
       .PACKET_DATA_LENGTH_HIGH ∧
     ∀ now2 nb rx2,
       (gbp_parse_message_update
         (gbp_parse_message_update (parseBytes gbp_printer_init [0x01, 0x00, 0x01]) 0 true 0).printer now2 nb rx2).printer =
       (gbp_parse_message_update (parseBytes gbp_printer_init [0x01, 0x00, 0x01]) 0 true 0).printer) :=
  c7_protocol_violation_amended (parseBytes gbp_printer_init [0x01, 0x00, 0x01])
    0 0 (by decide) (by decide) (by decide) (by decide)

/-! ### C8, payload bounds checking -/

/-- C8, counterexample.  A payload write one past a buffer's capacity is not
diverted to any error path, for either buffer the command can select: the
byte is stored at offset 650 of the 650-byte gbp_print_buffer (DATA packet)
and at offset 4 of the 4-byte gbp_print_settings_buffer (PRINT packet, whose
declared length 4 equals the capacity -- the off-by-one alone walks the write
past the end), the parser stays in VARIABLE_PAYLOAD respectively leaves it
normally, and neither halted nor serial_error_report is raised. -/
theorem c8_bounds_check_counterexample :
    (parseStep c8_pr 0xAB).gbp_print_buffer GBP_PRINT_BUFFER_CAPACITY = 0xAB ∧
    (parseStep c8_pr 0xAB).halted = false ∧
    (parseStep c8_pr 0xAB).serial_error_report = false ∧
    (parseStep c8_pr 0xAB).gbp_packet_parsing.parse_state = .VARIABLE_PAYLOAD ∧
    (parseStep c8s_pr 0xCD).gbp_print_settings_buffer GBP_SETTINGS_BUFFER_CAPACITY = 0xCD ∧
    (parseStep c8s_pr 0xCD).halted = false ∧
    (parseStep c8s_pr 0xCD).serial_error_report = false := by
  decide

/-- C8, amended.  No payload byte write is bounds-checked: in
VARIABLE_PAYLOAD every incoming byte is stored at offset data_index of the
buffer selected by the command -- the 650-byte gbp_print_buffer for DATA, the
4-byte gbp_print_settings_buffer for PRINT -- whatever that offset is, in
particular at or past the capacity, which in the C source is a write past the
end of the fixed array; and no protocol-violation path is taken (halted and
serial_error_report are untouched). -/
theorem c8_unchecked_write_amended (pr : gbp_printer_t) (now_ms rx : Nat)
    (h0 : pr.halted = false)
    (h1 : pr.gbp_packet_parsing.parse_state = .VARIABLE_PAYLOAD) :
    (pr.gbp_packet.data_ptr = .print_buffer →
      (gbp_parse_message_update pr now_ms true rx).printer.gbp_print_buffer
        pr.gbp_packet_parsing.data_index = rx) ∧
    (pr.gbp_packet.data_ptr = .settings_buffer →
      (gbp_parse_message_update pr now_ms true rx).printer.gbp_print_settings_buffer
        pr.gbp_packet_parsing.data_index = rx) ∧
    (gbp_parse_message_update pr now_ms true rx).printer.halted = false ∧
    (gbp_parse_message_update pr now_ms true rx).printer.serial_error_report =
      pr.serial_error_report := by
  unfold gbp_parse_message_update
  by_cases hgt :
      (pr.gbp_packet_parsing.data_index + 1) % 65536 > pr.gbp_packet.data_length <;>
    cases hd : pr.gbp_packet.data_ptr <;>
      simp [h0, h1, hd, hgt, payloadWrite, bufWrite]

/-- C8, witness: the amended theorem applied to c8_pr (image buffer selected,
data_index 650) with byte 0xAB, and to c8s_pr (settings buffer selected,
data_index 4) with byte 0xCD. -/
theorem c8_unchecked_write_witness :
    ((c8_pr.gbp_packet.data_ptr = .print_buffer →
       (gbp_parse_message_update c8_pr 0 true 0xAB).printer.gbp_print_buffer
         c8_pr.gbp_packet_parsing.data_index = 0xAB) ∧
     (c8_pr.gbp_packet.data_ptr = .settings_buffer →
       (gbp_parse_message_update c8_pr 0 true 0xAB).printer.gbp_print_settings_buffer
         c8_pr.gbp_packet_parsing.data_index = 0xAB) ∧
     (gbp_parse_message_update c8_pr 0 true 0xAB).printer.halted = false ∧
     (gbp_parse_message_update c8_pr 0 true 0xAB).printer.serial_error_report =
       c8_pr.serial_error_report) ∧
    ((c8s_pr.gbp_packet.data_ptr = .print_buffer →
       (gbp_parse_message_update c8s_pr 0 true 0xCD).printer.gbp_print_buffer
         c8s_pr.gbp_packet_parsing.data_index = 0xCD) ∧
     (c8s_pr.gbp_packet.data_ptr = .settings_buffer →
       (gbp_parse_message_update c8s_pr 0 true 0xCD).printer.gbp_print_settings_buffer
         c8s_pr.gbp_packet_parsing.data_index = 0xCD) ∧
     (gbp_parse_message_update c8s_pr 0 true 0xCD).printer.halted = false ∧
     (gbp_parse_message_update c8s_pr 0 true 0xCD).printer.serial_error_report =
       c8s_pr.serial_error_report) :=
  ⟨c8_unchecked_write_amended c8_pr 0 0xAB rfl rfl,
   c8_unchecked_write_amended c8s_pr 0 0xCD rfl rfl⟩

/-! ### C9, transmit byte staging -/

/-- C9, counterexample.  An idle byte frame does not transmit zero bits: with
0x55 staged once and never re-staged, the second byte frame of c9_edges (the
sixteen half-cycles after the first frame) repeats the bits of 0x55 MSB-first
instead of the all-zero idle pattern the claim requires -- tx_byte_staging is
checked for being nonzero, not for having been staged since the last load,
and it is never cleared. -/
theorem c9_idle_frame_counterexample :
    (runEdges c9_staged c9_edges).2.drop 16 =
      [some false, none, some true, none, some false, none, some true, none,
       some false, none, some true, none, some false, none, some true, none] ∧
    (runEdges c9_staged c9_edges).2.drop 16 ≠
      [some false, none, some false, none, some false, none, some false, none,
       some false, none, some false, none, some false, none, some false, none] := by
  decide

/-! ### C6, checksum mismatch is non-fatal -/

/-- The status byte is odd exactly when the checksum_error flag is set (bit 0
of the modelled layout). -/
theorem gbp_status_byte_mod_two (s : gbp_printer_status_t) :
    gbp_status_byte s % 2 = cond s.checksum_error 1 0 := by
  rcases s with ⟨c, u, f, b⟩
  cases c <;> cases u <;> cases f <;> cases b <;> decide

/-- C6.  A checksum mismatch is non-fatal: from state DEVICE_ID with a
running sum that differs from the received checksum, consuming the device-id
slot byte sets checksum_error, stages a response byte whose bit 0 (the
checksum-error bit of the status byte) is set, and consuming the following
status slot byte still reaches PACKET_RECEIVED and raises packet_ready_flag,
with the error flag still set. -/
theorem c6_checksum_mismatch_nonfatal (pr : gbp_printer_t) (now_ms rx rx2 : Nat)
    (h0 : pr.halted = false)
    (h1 : pr.gbp_packet_parsing.parse_state = .DEVICE_ID)
    (h2 : pr.gbp_packet_parsing.calculated_checksum ≠ pr.gbp_packet.checksum) :
    (gbp_parse_message_update pr now_ms true rx).printer.gbp_printer_status.checksum_error = true ∧
    (gbp_parse_message_update pr now_ms true rx).new_tx_byte = true ∧
    (gbp_parse_message_update pr now_ms true rx).tx_byte % 2 = 1 ∧
    (gbp_parse_message_update (gbp_parse_message_update pr now_ms true rx).printer
        now_ms true rx2).printer.gbp_packet_parsing.parse_state = .PACKET_RECEIVED ∧
    (gbp_parse_message_update (gbp_parse_message_update pr now_ms true rx).printer
        now_ms true rx2).printer.packet_ready_flag = true ∧
    (gbp_parse_message_update (gbp_parse_message_update pr now_ms true rx).printer
        now_ms true rx2).printer.gbp_printer_status.checksum_error = true := by
  unfold gbp_parse_message_update
  simp [h0, h1, h2, gbp_status_byte_mod_two]
  split_ifs <;> simp [gbp_status_byte_mod_two]

/-- C6, witness: the theorem applied to a concrete parser in state DEVICE_ID
with calculated_checksum 5 against received checksum 7. -/
theorem c6_checksum_mismatch_witness :
    ((gbp_parse_message_update c6_pr 0 true 0).printer.gbp_printer_status.checksum_error = true ∧
     (gbp_parse_message_update c6_pr 0 true 0).new_tx_byte = true ∧
     (gbp_parse_message_update c6_pr 0 true 0).tx_byte % 2 = 1 ∧
     (gbp_parse_message_update (gbp_parse_message_update c6_pr 0 true 0).printer
         0 true 0).printer.gbp_packet_parsing.parse_state = .PACKET_RECEIVED ∧
     (gbp_parse_message_update (gbp_parse_message_update c6_pr 0 true 0).printer
         0 true 0).printer.packet_ready_flag = true ∧
     (gbp_parse_message_update (gbp_parse_message_update c6_pr 0 true 0).printer
         0 true 0).printer.gbp_printer_status.checksum_error = true) :=
  c6_checksum_mismatch_nonfatal c6_pr 0 0 0 rfl rfl (by decide)

/-! ### C10, INIT and INQUIRY leave the other status flags alone -/

/-- C10.  While the packet's command is INIT or INQUIRY, no parser step
changes unprocessed_data, print_buffer_full, printer_busy or the
pretend-print deadline: the STATUS-entry action mutates those only for DATA
and PRINT commands, so completing an INIT (or INQUIRY) packet leaves every
PrinterStatus flag other than checksum_error unchanged. -/
theorem c10_init_inquiry_status_frame (pr : gbp_printer_t) (now_ms rx : Nat)
    (nb : Bool)
    (hcmd : pr.gbp_packet.command = GBP_COMMAND_INIT ∨
            pr.gbp_packet.command = GBP_COMMAND_INQUIRY) :
    (gbp_parse_message_update pr now_ms nb rx).printer.gbp_printer_status.unprocessed_data =
      pr.gbp_printer_status.unprocessed_data ∧
    (gbp_parse_message_update pr now_ms nb rx).printer.gbp_printer_status.print_buffer_full =
      pr.gbp_printer_status.print_buffer_full ∧
    (gbp_parse_message_update pr now_ms nb rx).printer.gbp_printer_status.printer_busy =
      pr.gbp_printer_status.printer_busy ∧
    (gbp_parse_message_update pr now_ms nb rx).printer.uptime_til_pretend_print_finish_ms =
      pr.uptime_til_pretend_print_finish_ms := by
  unfold gbp_parse_message_update
  rcases hcmd with h | h <;>
    cases nb <;>
    cases hp : pr.halted <;>
    cases hs : pr.gbp_packet_parsing.parse_state <;>
    cases hd : pr.gbp_packet.data_ptr <;>
      simp [h, hp, hs, hd, payloadWrite, GBP_COMMAND_INIT, GBP_COMMAND_DATA,
            GBP_COMMAND_PRINT, GBP_COMMAND_INQUIRY] <;>
      split_ifs <;>
      simp_all [payloadWrite]

/-- C10, witness: the theorem applied to a parser in state DEVICE_ID whose
packet command is INIT and whose status flags are all raised, consuming the
device-id slot byte. -/
theorem c10_init_inquiry_status_witness :
    ((gbp_parse_message_update c10_pr 0 true 0x07).printer.gbp_printer_status.unprocessed_data =
       c10_pr.gbp_printer_status.unprocessed_data ∧
     (gbp_parse_message_update c10_pr 0 true 0x07).printer.gbp_printer_status.print_buffer_full =
       c10_pr.gbp_printer_status.print_buffer_full ∧
     (gbp_parse_message_update c10_pr 0 true 0x07).printer.gbp_printer_status.printer_busy =
       c10_pr.gbp_printer_status.printer_busy ∧
     (gbp_parse_message_update c10_pr 0 true 0x07).printer.uptime_til_pretend_print_finish_ms =
       c10_pr.uptime_til_pretend_print_finish_ms) :=
  c10_init_inquiry_status_frame c10_pr 0 0x07 true (Or.inl rfl)

/-! ### C3, payload stage byte count -/

/-- One byte consumed in state VARIABLE_PAYLOAD: the index advances by one
modulo 2^16 (data_index is a uint16_t) and the stage is left exactly when the
incremented index exceeds data_length; nothing else relevant changes. -/
theorem variable_payload_step (pr : gbp_printer_t) (now_ms rx : Nat)
    (h0 : pr.halted = false)
    (h1 : pr.gbp_packet_parsing.parse_state = .VARIABLE_PAYLOAD) :
    (gbp_parse_message_update pr now_ms true rx).printer.halted = false ∧
    (gbp_parse_message_update pr now_ms true rx).printer.gbp_packet.data_length =
      pr.gbp_packet.data_length ∧
    (gbp_parse_message_update pr now_ms true rx).printer.gbp_packet.data_ptr =
      pr.gbp_packet.data_ptr ∧
    (gbp_parse_message_update pr now_ms true rx).printer.gbp_packet_parsing.data_index =
      (pr.gbp_packet_parsing.data_index + 1) % 65536 ∧
    (gbp_parse_message_update pr now_ms true rx).printer.gbp_packet_parsing.parse_state =
      (if (pr.gbp_packet_parsing.data_index + 1) % 65536 > pr.gbp_packet.data_length
       then .CHECKSUM_LOW else .VARIABLE_PAYLOAD) := by
  unfold gbp_parse_message_update
  by_cases hgt :
      (pr.gbp_packet_parsing.data_index + 1) % 65536 > pr.gbp_packet.data_length <;>
    cases hd : pr.gbp_packet.data_ptr <;>
      simp [h0, h1, hd, hgt, payloadWrite]

/-- Running the payload stage while the incremented index stays at or below
data_length = L < 65535 keeps the parser in VARIABLE_PAYLOAD and counts the
bytes consumed in data_index. -/
theorem payload_run (L : Nat) (hL : L < 65535) :
    ∀ (bs : List Nat) (pr : gbp_printer_t) (k : Nat),
      pr.halted = false →
      pr.gbp_packet_parsing.parse_state = .VARIABLE_PAYLOAD →
      pr.gbp_packet_parsing.data_index = k →
      pr.gbp_packet.data_length = L →
      k + bs.length ≤ L →
      (parseBytes pr bs).halted = false ∧
      (parseBytes pr bs).gbp_packet_parsing.parse_state = .VARIABLE_PAYLOAD ∧
      (parseBytes pr bs).gbp_packet_parsing.data_index = k + bs.length ∧
      (parseBytes pr bs).gbp_packet.data_length = L := by
  intro bs
  induction bs with
  | nil =>
    intro pr k h0 h1 h2 h3 _
    simpa [parseBytes] using ⟨h0, h1, h2, h3⟩
  | cons b bs ih =>
    intro pr k h0 h1 h2 h3 h4
    have hk1 : k + 1 ≤ L := by
      have := h4; simp [List.length_cons] at this; omega
    have hmod : (k + 1) % 65536 = k + 1 := Nat.mod_eq_of_lt (by omega)
    have hstep := variable_payload_step pr 0 b h0 h1
    have hnogt : ¬ ((pr.gbp_packet_parsing.data_index + 1) % 65536 >
        pr.gbp_packet.data_length) := by
      rw [h2, h3, hmod]; omega
    have hrest := ih (parseStep pr b) (k + 1)
      (by simpa [parseStep] using hstep.1)
      (by simpa [parseStep, hnogt] using hstep.2.2.2.2)
      (by simpa [parseStep, h2, hmod] using hstep.2.2.2.1)
      (by simpa [parseStep, h3] using hstep.2.1)
      (by simp [List.length_cons] at h4; omega)
    have hfold : parseBytes pr (b :: bs) = List.foldl parseStep (parseStep pr b) bs := rfl
    refine ⟨by rw [hfold]; exact hrest.1, by rw [hfold]; exact hrest.2.1, ?_,
      by rw [hfold]; exact hrest.2.2.2⟩
    have hidx := hrest.2.2.1
    rw [parseBytes] at hidx
    rw [hfold, hidx]
    simp [List.length_cons]
    omega

/-- With data_length = 65535 (the largest uint16_t) the payload stage can
never end: data_index, itself a uint16_t, is never strictly greater than
65535, so any number of bytes leaves the parser in VARIABLE_PAYLOAD. -/
theorem payload_stuck :
    ∀ (bs : List Nat) (pr : gbp_printer_t),
      pr.halted = false →
      pr.gbp_packet_parsing.parse_state = .VARIABLE_PAYLOAD →
      pr.gbp_packet.data_length = 65535 →
      (parseBytes pr bs).gbp_packet_parsing.parse_state = .VARIABLE_PAYLOAD ∧
      (parseBytes pr bs).halted = false ∧
      (parseBytes pr bs).gbp_packet.data_length = 65535 := by
  intro bs
  induction bs with
  | nil =>
    intro pr h0 h1 h2
    simpa [parseBytes] using ⟨h1, h0, h2⟩
  | cons b bs ih =>
    intro pr h0 h1 h2
    have hstep := variable_payload_step pr 0 b h0 h1
    have hnogt : ¬ ((pr.gbp_packet_parsing.data_index + 1) % 65536 >
        pr.gbp_packet.data_length) := by
      have : (pr.gbp_packet_parsing.data_index + 1) % 65536 < 65536 :=
        Nat.mod_lt _ (by omega)
      rw [h2]; omega
    have hrest := ih (parseStep pr b)
      (by simpa [parseStep] using hstep.1)
      (by simpa [parseStep, hnogt] using hstep.2.2.2.2)
      (by simpa [parseStep, h2] using hstep.2.1)
    simpa [parseBytes, List.foldl_cons] using hrest

/-- C3, counterexample.  For the maximal length field L = 0xFFFF the payload
stage does not consume exactly L + 1 bytes: after the DATA header declaring
data_length = 65535 and then 65535 + 1 payload bytes, the parser is still in
VARIABLE_PAYLOAD (data_index wrapped around its 16 bits), not in
CHECKSUM_LOW. -/
theorem c3_payload_counterexample :
    (parseBytes c3_stuck (List.replicate (65535 + 1) 0)).gbp_packet_parsing.parse_state =
      .VARIABLE_PAYLOAD ∧
    c3_stuck.gbp_packet.data_length = 65535 :=
  ⟨(payload_stuck (List.replicate (65535 + 1) 0) c3_stuck (by decide) (by decide)
      (by decide)).1, by decide⟩

/-- C3, amended.  For every parsed packet whose data_length is L with
0 < L < 65535 and a non-null payload target, the VARIABLE_PAYLOAD stage
consumes exactly L + 1 incoming bytes before transitioning to CHECKSUM_LOW
(the exit test "index exceeds data_length" runs after the increment): after
any first L bytes it is still in VARIABLE_PAYLOAD, and after L + 1 bytes it
is in CHECKSUM_LOW.  For L = 65535 the stage never ends (see the
counterexample). -/
theorem c3_payload_amended (L : Nat) (hL0 : 0 < L) (hL : L < 65535)
    (pr : gbp_printer_t)
    (h0 : pr.halted = false)
    (h1 : pr.gbp_packet_parsing.parse_state = .VARIABLE_PAYLOAD)
    (h2 : pr.gbp_packet_parsing.data_index = 0)
    (h3 : pr.gbp_packet.data_length = L)
    (h4 : pr.gbp_packet.data_ptr ≠ .null)
    (bs : List Nat) :
    (bs.length ≤ L →
      (parseBytes pr bs).gbp_packet_parsing.parse_state = .VARIABLE_PAYLOAD) ∧
    (bs.length = L + 1 →
      (parseBytes pr bs).gbp_packet_parsing.parse_state = .CHECKSUM_LOW) := by
  constructor
  · intro hlen
    exact (payload_run L hL bs pr 0 h0 h1 h2 h3 (by omega)).2.1
  · intro hlen
    have hsplit := List.take_append_drop L bs
    have htake : (bs.take L).length = L := by
      simp [List.length_take]; omega
    have hdroplen : (bs.drop L).length = 1 := by
      simp [List.length_drop]; omega
    obtain ⟨b, hb⟩ := List.length_eq_one.mp hdroplen
    have hmid := payload_run L hL (bs.take L) pr 0 h0 h1 h2 h3 (by omega)
    have hstep := variable_payload_step (parseBytes pr (bs.take L)) 0 b
      hmid.1 hmid.2.1
    have hidx : (parseBytes pr (bs.take L)).gbp_packet_parsing.data_index = L := by
      simpa [htake] using hmid.2.2.1
    have hmod : (L + 1) % 65536 = L + 1 := Nat.mod_eq_of_lt (by omega)
    have hgt : ((parseBytes pr (bs.take L)).gbp_packet_parsing.data_index + 1) % 65536 >
        (parseBytes pr (bs.take L)).gbp_packet.data_length := by
      rw [hidx, hmid.2.2.2, hmod]; omega
    calc (parseBytes pr bs).gbp_packet_parsing.parse_state
        = (parseBytes pr (bs.take L ++ bs.drop L)).gbp_packet_parsing.parse_state := by
          rw [hsplit]
      _ = (parseStep (parseBytes pr (bs.take L)) b).gbp_packet_parsing.parse_state := by
          rw [parseBytes, List.foldl_append, hb]
          simp [parseBytes, parseStep]
      _ = .CHECKSUM_LOW := by
          have hfin := hstep.2.2.2.2
          rw [if_pos hgt] at hfin
          simpa [parseStep] using hfin

/-- C3, witness: the amended theorem applied at L = 3 to a parser entering
the payload stage with the image buffer selected, and the four bytes
0x11 0x22 0x33 0x44. -/
theorem c3_payload_witness :
    (([0x11, 0x22, 0x33, 0x44] : List Nat).length ≤ 3 →
      (parseBytes c3_wit [0x11, 0x22, 0x33, 0x44]).gbp_packet_parsing.parse_state =
        .VARIABLE_PAYLOAD) ∧
    (([0x11, 0x22, 0x33, 0x44] : List Nat).length = 3 + 1 →
      (parseBytes c3_wit [0x11, 0x22, 0x33, 0x44]).gbp_packet_parsing.parse_state =
        .CHECKSUM_LOW) :=
  c3_payload_amended 3 (by decide) (by decide) c3_wit rfl rfl rfl rfl (by decide)
    [0x11, 0x22, 0x33, 0x44]

/-- A nonzero-guarded load is the identity: `if B ≠ 0 then B else 0` is B. -/
theorem ite_ne_zero_self (B : Nat) : (if B ≠ 0 then B else 0) = B := by
  by_cases h : B = 0 <;> simp [h]

/-- A zero-guarded load in the form simp normalises to. -/
theorem ite_zero_self (B : Nat) : (if B = 0 then 0 else B) = B := by
  split <;> simp_all

/-- The transmit-bit test `tx_byte_buffer & (1 << k)` is zero exactly when
bit k is clear. -/
theorem and_two_pow_eq_zero (B k : Nat) :
    decide (B &&& 2 ^ k = 0) = !B.testBit k := by
  rw [Nat.and_two_pow]
  cases h : B.testBit k <;> simp [h, pow_ne_zero]

theorem and_128_testBit (B : Nat) : decide (B &&& 128 = 0) = !B.testBit 7 := by
  simpa using and_two_pow_eq_zero B 7

theorem and_64_testBit (B : Nat) : decide (B &&& 64 = 0) = !B.testBit 6 := by
  simpa using and_two_pow_eq_zero B 6

theorem and_32_testBit (B : Nat) : decide (B &&& 32 = 0) = !B.testBit 5 := by
  simpa using and_two_pow_eq_zero B 5

theorem and_16_testBit (B : Nat) : decide (B &&& 16 = 0) = !B.testBit 4 := by
  simpa using and_two_pow_eq_zero B 4

theorem and_8_testBit (B : Nat) : decide (B &&& 8 = 0) = !B.testBit 3 := by
  simpa using and_two_pow_eq_zero B 3

theorem and_4_testBit (B : Nat) : decide (B &&& 4 = 0) = !B.testBit 2 := by
  simpa using and_two_pow_eq_zero B 2

theorem and_2_testBit (B : Nat) : decide (B &&& 2 = 0) = !B.testBit 1 := by
  simpa using and_two_pow_eq_zero B 1

theorem and_1_testBit (B : Nat) : decide (B &&& 1 = 0) = !B.testBit 0 := by
  simpa using and_two_pow_eq_zero B 0

/-- C9, amended.  The transmit buffer is loaded at a frame start from
tx_byte_staging whenever the staged value is nonzero and with 0 otherwise --
and since the staged value is never cleared, for every byte B staged before a
frame start (via gbp_rx_tx_byte_set) the next 8 falling edges drive the
serial-out line with the bits of B, MSB first (for B = 0 the load of 0 drives
the bits of 0, so the description covers every byte); tx_byte_staging still
holds B afterwards, which is why an idle follow-on frame repeats B instead of
going quiet (see the counterexample). -/
theorem c9_tx_frame_amended (B : Nat) (s : gbp_rx_tx_byte_buffer_t)
    (d0 d1 d2 d3 d4 d5 d6 d7 d8 d9 d10 d11 d12 d13 d14 d15 : Bool)
    (h0 : s.initialized = true)
    (h1 : s.syncronised = true)
    (h2 : s.byte_frame_bit_pos = 7)
    (h3 : s.serial_clock_state_prev = true)
    (h4 : s.tx_byte_staging = B) :
    (runEdges s
      [(false, d0), (true, d1), (false, d2), (true, d3),
       (false, d4), (true, d5), (false, d6), (true, d7),
       (false, d8), (true, d9), (false, d10), (true, d11),
       (false, d12), (true, d13), (false, d14), (true, d15)]).2 =
      [some (B.testBit 7), none, some (B.testBit 6), none,
       some (B.testBit 5), none, some (B.testBit 4), none,
       some (B.testBit 3), none, some (B.testBit 2), none,
       some (B.testBit 1), none, some (B.testBit 0), none] ∧
    (runEdges s
      [(false, d0), (true, d1), (false, d2), (true, d3),
       (false, d4), (true, d5), (false, d6), (true, d7),
       (false, d8), (true, d9), (false, d10), (true, d11),
       (false, d12), (true, d13), (false, d14), (true, d15)]).1.tx_byte_staging = B := by
  simp [runEdges, gbp_rx_tx_byte_update, h0, h1, h2, h3, h4, ite_ne_zero_self,
        ite_zero_self, and_128_testBit, and_64_testBit, and_32_testBit,
        and_16_testBit, and_8_testBit, and_4_testBit, and_2_testBit,
        and_1_testBit]


/-- C9, witness: the amended theorem applied to c9_wit (0xA5 staged) with the
data-in line low on all sixteen half-cycles. -/
theorem c9_tx_frame_witness :
    ((runEdges c9_wit
       [(false, false), (true, false), (false, false), (true, false),
        (false, false), (true, false), (false, false), (true, false),
        (false, false), (true, false), (false, false), (true, false),
        (false, false), (true, false), (false, false), (true, false)]).2 =
      [some ((0xA5 : Nat).testBit 7), none, some ((0xA5 : Nat).testBit 6), none,
       some ((0xA5 : Nat).testBit 5), none, some ((0xA5 : Nat).testBit 4), none,
       some ((0xA5 : Nat).testBit 3), none, some ((0xA5 : Nat).testBit 2), none,
       some ((0xA5 : Nat).testBit 1), none, some ((0xA5 : Nat).testBit 0), none] ∧
     (runEdges c9_wit
       [(false, false), (true, false), (false, false), (true, false),
        (false, false), (true, false), (false, false), (true, false),
        (false, false), (true, false), (false, false), (true, false),
        (false, false), (true, false), (false, false), (true, false)]).1.tx_byte_staging = 0xA5) :=
  c9_tx_frame_amended 0xA5 c9_wit
    false false false false false false false false
    false false false false false false false false
    rfl rfl rfl rfl rfl

/-! ### C5, sync-word detection -/

/-- Oring 1 into an even number is adding 1. -/
theorem lor_one_of_even (n : Nat) (h : n % 2 = 0) : n ||| 1 = n + 1 := by
  apply Nat.eq_of_testBit_eq
  intro i
  cases i with
  | zero =>
    simp [Nat.testBit_lor]
    omega
  | succ j =>
    have h2 : (n + 1) / 2 = n / 2 := by omega
    rw [Nat.testBit_lor]
    simp [Nat.testBit_succ, h2]

theorem rawValFrom_cons (v : Nat) (b : Bool) (bs : List Bool) :
    rawValFrom v (b :: bs) = rawValFrom (2 * v + cond b 1 0) bs := rfl

theorem foldVal_cons (v : Nat) (b : Bool) (bs : List Bool) :
    foldVal v (b :: bs) = foldVal (stepVal v b) bs := rfl

/-- The scan step is the numeric step reduced modulo 2^16. -/
theorem stepVal_eq (a : Nat) (b : Bool) :
    stepVal a b = (2 * a + cond b 1 0) % 65536 := by
  unfold stepVal
  cases b
  · simp [Nat.mul_comm]
  · have h : (a * 2) % 65536 % 2 = 0 := by omega
    simp only [if_pos, cond]
    rw [lor_one_of_even _ h]
    omega

theorem stepVal_lt (a : Nat) (b : Bool) : stepVal a b < 65536 := by
  rw [stepVal_eq]; exact Nat.mod_lt _ (by norm_num)

/-- Closed form of rawValFrom. -/
theorem rawValFrom_eq (bs : List Bool) :
    ∀ v, rawValFrom v bs = v * 2 ^ bs.length + rawVal bs := by
  induction bs with
  | nil => intro v; simp [rawValFrom, rawVal]
  | cons b bs ih =>
    intro v
    rw [rawValFrom_cons, ih]
    have hr : rawVal (b :: bs) = (2 * 0 + cond b 1 0) * 2 ^ bs.length + rawVal bs := by
      rw [rawVal, rawValFrom_cons, ih]
    rw [hr]
    simp only [List.length_cons, pow_succ]
    ring

/-- A bit list's value is below 2 to its length. -/
theorem rawVal_lt (bs : List Bool) : rawVal bs < 2 ^ bs.length := by
  induction bs with
  | nil => simp [rawVal, rawValFrom]
  | cons b bs ih =>
    rw [rawVal, rawValFrom_cons, rawValFrom_eq]
    simp only [List.length_cons, pow_succ]
    cases b <;> simp <;> omega

/-- Scanning equals accumulating the numeral and reducing modulo 2^16. -/
theorem foldVal_eq (bs : List Bool) :
    ∀ v, v < 65536 → foldVal v bs = rawValFrom v bs % 65536 := by
  induction bs with
  | nil =>
    intro v hv
    simp [foldVal, rawValFrom, Nat.mod_eq_of_lt hv]
  | cons b bs ih =>
    intro v hv
    rw [foldVal_cons, rawValFrom_cons, ih _ (stepVal_lt v b), stepVal_eq,
        rawValFrom_eq, rawValFrom_eq]
    exact ((Nat.mod_modEq (2 * v + cond b 1 0) 65536).mul_right
      (2 ^ bs.length)).add_right (rawVal bs)

/-- Appending multiplies the head value by 2 to the tail length. -/
theorem rawVal_append (xs ys : List Bool) :
    rawVal (xs ++ ys) = rawVal xs * 2 ^ ys.length + rawVal ys := by
  have h : rawVal (xs ++ ys) = rawValFrom (rawVal xs) ys := by
    rw [rawVal, rawValFrom, rawValFrom, List.foldl_append]
    rfl
  rw [h, rawValFrom_eq]

/-- Modulo 2^16, only the last 16 bits of a long enough list matter. -/
theorem rawVal_suffix16 (q : List Bool) (h : 16 ≤ q.length) :
    rawVal q % 65536 = rawVal (q.drop (q.length - 16)) := by
  conv_lhs => rw [← List.take_append_drop (q.length - 16) q]
  rw [rawVal_append]
  have hlen : (q.drop (q.length - 16)).length = 16 := by
    simp [List.length_drop]; omega
  have hlt : rawVal (q.drop (q.length - 16)) < 65536 := by
    have h2 := rawVal_lt (q.drop (q.length - 16))
    rw [hlen] at h2
    omega
  rw [hlen]
  have hp : (2 : Nat) ^ 16 = 65536 := by norm_num
  rw [hp]
  omega

/-- Two bit lists of one length with one value are one list. -/
theorem rawVal_inj : ∀ (l1 l2 : List Bool), l1.length = l2.length →
    rawVal l1 = rawVal l2 → l1 = l2 := by
  intro l1
  induction l1 with
  | nil =>
    intro l2 h _
    cases l2 with
    | nil => rfl
    | cons b t => simp at h
  | cons b1 t1 ih =>
    intro l2 hlen hval
    cases l2 with
    | nil => simp at hlen
    | cons b2 t2 =>
      have hlen' : t1.length = t2.length := by simpa using hlen
      have e1 : rawVal (b1 :: t1) = cond b1 1 0 * 2 ^ t1.length + rawVal t1 := by
        rw [rawVal, rawValFrom_cons, rawValFrom_eq]
        simp
      have e2 : rawVal (b2 :: t2) = cond b2 1 0 * 2 ^ t1.length + rawVal t2 := by
        rw [rawVal, rawValFrom_cons, rawValFrom_eq, hlen']
        simp
      rw [e1, e2] at hval
      have r1 := rawVal_lt t1
      have r2 := rawVal_lt t2
      rw [← hlen'] at r2
      cases b1 <;> cases b2 <;> simp at hval <;> first
        | (exfalso; omega)
        | (rw [ih t2 hlen' (by omega)])

/-- If the scan register starting from 0 shows the sync word, the bits read
so far end with the sync word's 16 bits. -/
theorem endsWithSync_of_foldVal (q : List Bool)
    (h : foldVal 0 q = GBP_SYNC_WORD) : endsWithSync q := by
  rw [foldVal_eq q 0 (by norm_num)] at h
  have hq : rawValFrom 0 q = rawVal q := rfl
  rw [hq] at h
  by_cases hlen : 16 ≤ q.length
  · refine ⟨hlen, ?_⟩
    rw [rawVal_suffix16 q hlen] at h
    apply rawVal_inj
    · have hd : (q.drop (q.length - 16)).length = 16 := by
        simp [List.length_drop]; omega
      rw [hd]
      decide
    · rw [h]
      decide
  · exfalso
    have hlt : rawVal q < 2 ^ q.length := rawVal_lt q
    have hle : (2 : Nat) ^ q.length ≤ 2 ^ 15 :=
      Nat.pow_le_pow_right (by norm_num) (by omega)
    have h15 : (2 : Nat) ^ 15 = 32768 := by norm_num
    rw [Nat.mod_eq_of_lt (by omega)] at h
    rw [GBP_SYNC_WORD] at h
    omega

/-- Any bit stream ending in the sync word drives the scan register to the
sync word. -/
theorem foldVal_append_syncBits (pre : List Bool) :
    foldVal 0 (pre ++ syncBits) = GBP_SYNC_WORD := by
  rw [foldVal_eq _ 0 (by norm_num)]
  have hq : rawValFrom 0 (pre ++ syncBits) = rawVal (pre ++ syncBits) := rfl
  rw [hq, rawVal_append]
  have h16 : syncBits.length = 16 := by decide
  rw [h16]
  have hlt : rawVal syncBits < 65536 := by decide
  have hval : rawVal syncBits = GBP_SYNC_WORD := by decide
  have hp : (2 : Nat) ^ 16 = 65536 := by norm_num
  rw [hp, GBP_SYNC_WORD] at *
  omega


/-- One scanned bit while unsynchronized: the shift register advances by
stepVal, synchronization happens exactly when it shows the sync word, and the
bit position is set to 7 at that transition (otherwise untouched -- falling
edges only touch the transmit side). -/
theorem feedBit_unsync (s : gbp_rx_tx_byte_buffer_t) (b : Bool)
    (hInv : UnsyncInv s) :
    (feedBit s b).initialized = true ∧
    (feedBit s b).sync_word = GBP_SYNC_WORD ∧
    (feedBit s b).sync_buffer = stepVal s.sync_buffer b ∧
    (feedBit s b).syncronised = decide (stepVal s.sync_buffer b = GBP_SYNC_WORD) ∧
    (feedBit s b).byte_frame_bit_pos =
      (if stepVal s.sync_buffer b = GBP_SYNC_WORD then 7
       else s.byte_frame_bit_pos) := by
  obtain ⟨h0, h1, h2⟩ := hInv
  by_cases hw : stepVal s.sync_buffer b = GBP_SYNC_WORD <;>
    cases hp : s.serial_clock_state_prev <;>
      simp only [stepVal] at hw <;>
        simp [feedBit, gbp_rx_tx_byte_update, stepVal, h0, h1, h2, hp, hw]

/-- While no nonempty initial segment of the scanned bits drives the register
to the sync word, the streamer stays unsynchronized, accumulating foldVal;
the bit position is never touched. -/
theorem scan_no_match :
    ∀ (bs : List Bool) (s : gbp_rx_tx_byte_buffer_t), UnsyncInv s →
      (∀ k, 0 < k → k ≤ bs.length →
        foldVal s.sync_buffer (bs.take k) ≠ GBP_SYNC_WORD) →
      UnsyncInv (feedBits s bs) ∧
      (feedBits s bs).sync_buffer = foldVal s.sync_buffer bs ∧
      (feedBits s bs).byte_frame_bit_pos = s.byte_frame_bit_pos := by
  intro bs
  induction bs with
  | nil =>
    intro s hInv _
    exact ⟨hInv, rfl, rfl⟩
  | cons b bs ih =>
    intro s hInv hks
    have hb : stepVal s.sync_buffer b ≠ GBP_SYNC_WORD := by
      have h1 := hks 1 (by omega) (by simp)
      simpa [foldVal] using h1
    have hstep := feedBit_unsync s b hInv
    have hInv2 : UnsyncInv (feedBit s b) :=
      ⟨hstep.1, by rw [hstep.2.2.2.1]; simp [hb], hstep.2.1⟩
    have hks2 : ∀ k, 0 < k → k ≤ bs.length →
        foldVal (feedBit s b).sync_buffer (bs.take k) ≠ GBP_SYNC_WORD := by
      intro k hk0 hk
      rw [hstep.2.2.1]
      have h1 := hks (k + 1) (by omega) (by simp; omega)
      simpa [List.take_succ_cons, foldVal_cons] using h1
    have hrest := ih (feedBit s b) hInv2 hks2
    refine ⟨?_, ?_, ?_⟩
    · simpa [feedBits, List.foldl_cons] using hrest.1
    · have h1 := hrest.2.1
      rw [hstep.2.2.1, ← foldVal_cons] at h1
      simpa [feedBits, List.foldl_cons] using h1
    · have h1 := hrest.2.2
      rw [hstep.2.2.2.2, if_neg hb] at h1
      simpa [feedBits, List.foldl_cons] using h1

/-- If the register first shows the sync word exactly on the last scanned
bit, the streamer leaves that bit synchronized with bit position 7. -/
theorem scan_match_last :
    ∀ (bs : List Bool) (s : gbp_rx_tx_byte_buffer_t), UnsyncInv s →
      bs ≠ [] →
      (∀ k, 0 < k → k < bs.length →
        foldVal s.sync_buffer (bs.take k) ≠ GBP_SYNC_WORD) →
      foldVal s.sync_buffer bs = GBP_SYNC_WORD →
      (feedBits s bs).syncronised = true ∧
      (feedBits s bs).byte_frame_bit_pos = 7 := by
  intro bs
  induction bs with
  | nil =>
    intro s _ hne _ _
    exact absurd rfl hne
  | cons b bs ih =>
    intro s hInv _ hks hful
    have hstep := feedBit_unsync s b hInv
    cases bs with
    | nil =>
      have hb : stepVal s.sync_buffer b = GBP_SYNC_WORD := by
        simpa [foldVal] using hful
      constructor
      · have h1 := hstep.2.2.2.1
        rw [hb] at h1
        simpa [feedBits, List.foldl_cons] using h1
      · have h1 := hstep.2.2.2.2
        rw [if_pos hb] at h1
        simpa [feedBits, List.foldl_cons] using h1
    | cons b2 bs2 =>
      have hb : stepVal s.sync_buffer b ≠ GBP_SYNC_WORD := by
        have h1 := hks 1 (by omega) (by simp)
        simpa [foldVal] using h1
      have hInv2 : UnsyncInv (feedBit s b) :=
        ⟨hstep.1, by rw [hstep.2.2.2.1]; simp [hb], hstep.2.1⟩
      have hks2 : ∀ k, 0 < k → k < (b2 :: bs2).length →
          foldVal (feedBit s b).sync_buffer ((b2 :: bs2).take k) ≠ GBP_SYNC_WORD := by
        intro k hk0 hk
        rw [hstep.2.2.1]
        have h1 := hks (k + 1) (by omega) (by simp at hk ⊢; omega)
        simpa [List.take_succ_cons, foldVal_cons] using h1
      have hful2 : foldVal (feedBit s b).sync_buffer (b2 :: bs2) = GBP_SYNC_WORD := by
        rw [hstep.2.2.1, ← foldVal_cons]
        exact hful
      have h1 := ih (feedBit s b) hInv2 (by simp) hks2 hful2
      constructor
      · simpa [feedBits, List.foldl_cons] using h1.1
      · simpa [feedBits, List.foldl_cons] using h1.2

/-- C5.  For every rising-edge bit sequence that contains the 16 sync-word
bits as a contiguous MSB-first run ending exactly at its end -- and, per
hfirst, nowhere earlier -- the streamer, started from reset, is still
unsynchronized after every proper initial segment and becomes synchronized
exactly on the edge completing the run, with byte_frame_bit_pos set to 7;
the bits before the run are arbitrary. -/
theorem c5_sync_detection (pre bs : List Bool)
    (hbs : bs = pre ++ syncBits)
    (hfirst : ∀ k, k < bs.length → ¬ endsWithSync (bs.take k)) :
    (feedBits gbp_rx_tx_byte_reset bs).syncronised = true ∧
    (feedBits gbp_rx_tx_byte_reset bs).byte_frame_bit_pos = 7 ∧
    ∀ k, k < bs.length →
      (feedBits gbp_rx_tx_byte_reset (bs.take k)).syncronised = false := by
  have hInv : UnsyncInv gbp_rx_tx_byte_reset := ⟨rfl, rfl, rfl⟩
  have hbuf : gbp_rx_tx_byte_reset.sync_buffer = 0 := rfl
  have hne : bs ≠ [] := by
    rw [hbs]
    intro hnil
    have hlen := congrArg List.length hnil
    simp [syncBits] at hlen
  have hful : foldVal gbp_rx_tx_byte_reset.sync_buffer bs = GBP_SYNC_WORD := by
    rw [hbuf, hbs]
    exact foldVal_append_syncBits pre
  have hmid : ∀ k, 0 < k → k < bs.length →
      foldVal gbp_rx_tx_byte_reset.sync_buffer (bs.take k) ≠ GBP_SYNC_WORD := by
    intro k _ hk heq
    rw [hbuf] at heq
    exact hfirst k hk (endsWithSync_of_foldVal _ heq)
  have hmain := scan_match_last bs gbp_rx_tx_byte_reset hInv hne hmid hful
  refine ⟨hmain.1, hmain.2, ?_⟩
  intro k hk
  have hcond : ∀ j, 0 < j → j ≤ (bs.take k).length →
      foldVal gbp_rx_tx_byte_reset.sync_buffer ((bs.take k).take j) ≠ GBP_SYNC_WORD := by
    intro j hj0 hj
    have hjk : j ≤ k := by
      have hlt : (bs.take k).length = k := by simp [List.length_take]; omega
      omega
    rw [List.take_take, min_eq_left hjk]
    exact hmid j hj0 (by omega)
  exact ((scan_no_match (bs.take k) gbp_rx_tx_byte_reset hInv hcond).1).2.1

/-- C5, witness: the theorem applied to the bare sync word (no leading
bits); no proper initial segment of syncBits ends with the sync word. -/
theorem c5_sync_detection_witness :
    ((∀ k, k < syncBits.length → ¬ endsWithSync (syncBits.take k)) ∧
     (feedBits gbp_rx_tx_byte_reset syncBits).syncronised = true ∧
     (feedBits gbp_rx_tx_byte_reset syncBits).byte_frame_bit_pos = 7 ∧
     ∀ k, k < syncBits.length →
       (feedBits gbp_rx_tx_byte_reset (syncBits.take k)).syncronised = false) :=
  ⟨by decide, c5_sync_detection [] syncBits rfl (by decide)⟩

end Gbp
